import Mathlib

/-!
Verification of the NewsWeb backend (src/apis.py) against its
natural-language specification.

The Python program is shallowly embedded: the database table `articles`
becomes an explicit list of rows threaded through the handlers, the
timestamps returned by `datetime.datetime.utcnow()` are modelled as natural
numbers (seconds since the epoch, so `timedelta(days=1)` is 86400), and the
compact JWT strings produced by `jwt.encode` are modelled structurally as a
payload together with the secret that signed them.  Fallible handlers return
the mutated database state paired with an `Except` value, because the two
write statements of the feature-invariant path are not wrapped in a
transaction: a failed insert can leave the unfeature statement committed.
-/

namespace NewsWeb

/-- Timestamps are seconds since the epoch, the granularity used by the
`exp` claim of a JWT. -/
abbrev Timestamp := Nat

/-- A persisted row of the `articles` table (src/apis.py, `articles = Table(...)`). -/
structure Article where
  id : Nat
  title : String
  slug : String
  content : String
  category : String
  created_at : Timestamp
  updated_at : Timestamp
  is_featured : Bool
  status : String
  thumbnail_url : Option String
deriving Repr, DecidableEq

/-- The request body `ArticleSchema(BaseModel)`: pydantic checks only
presence and type, so `slug` and `thumbnail_url` may be absent and every
string may be empty. -/
structure ArticleSchema where
  title : String
  slug : Option String := none
  content : String
  category : String
  is_featured : Bool := false
  status : String := "draft"
  thumbnail_url : Option String := none
deriving Repr, DecidableEq

/-- The database state: the rows of the `articles` table plus the value the
serial primary-key sequence will hand out next.  Postgres consumes a
sequence value on every attempted insert, committed or not. -/
structure DBState where
  rows : List Article
  nextId : Nat
deriving Repr, DecidableEq

/-- The state after `metadata.create_all`: an empty table, ids from 1. -/
def initialState : DBState := ⟨[], 1⟩

/-- Errors surfaced to the HTTP caller: `HTTPException(status_code, detail)`
raised by the handlers, the 422 produced by FastAPI request validation, and
database integrity errors (unique constraint, varchar overflow) that escape
as server errors. -/
inductive ApiError where
  | http (code : Nat) (detail : String)
  | constraint (detail : String)
deriving Repr, DecidableEq

/-! ## Slug derivation -/

/-- The uppercase-lowercase letter pairs of the ASCII alphabet. -/
def asciiCasePairs : List (Char × Char) :=
  [('A', 'a'), ('B', 'b'), ('C', 'c'), ('D', 'd'), ('E', 'e'), ('F', 'f'),
   ('G', 'g'), ('H', 'h'), ('I', 'i'), ('J', 'j'), ('K', 'k'), ('L', 'l'),
   ('M', 'm'), ('N', 'n'), ('O', 'o'), ('P', 'p'), ('Q', 'q'), ('R', 'r'),
   ('S', 's'), ('T', 't'), ('U', 'u'), ('V', 'v'), ('W', 'w'), ('X', 'x'),
   ('Y', 'y'), ('Z', 'z')]

/-- ASCII model of Python `str.lower` on one character.  The titles the
system handles are ASCII; only the letters A-Z change. -/
def lowerChar (c : Char) : Char :=
  match asciiCasePairs.find? (fun p => p.1 == c) with
  | some p => p.2
  | none => c

/-- Python `s.replace(" ", "-")`: the pattern is a single character, so the
replacement is a character map. -/
def replaceSpaces (s : String) : String :=
  ⟨s.data.map (fun c => if c = ' ' then '-' else c)⟩

/-- Python `s.lower()` (ASCII model). -/
def lowerStr (s : String) : String :=
  ⟨s.data.map lowerChar⟩

/-- The slug computed by `article.title.replace(" ", "-").lower()`. -/
def derivedSlug (title : String) : String :=
  lowerStr (replaceSpaces title)

/-- The slug actually written: `article.slug or article.title.replace(" ", "-").lower()`.
Python treats both `None` and the empty string as falsy. -/
def effectiveSlug (a : ArticleSchema) : String :=
  match a.slug with
  | none => derivedSlug a.title
  | some s => if s = "" then derivedSlug a.title else s

/-! ## Write path -/

/-- Effect of `articles.update().where(articles.c.is_featured == True).values(is_featured=False)`
on one row. -/
def unfeature1 (r : Article) : Article :=
  if r.is_featured then { r with is_featured := false } else r

/-- The unfeature statement applied to the whole table. -/
def unfeatureAll (rows : List Article) : List Article :=
  rows.map unfeature1

/-- Varchar limits of the `articles` table: title, slug and thumbnail_url
are `String(255)`, category is `String(50)`; `status` and `content` are
unbounded.  The database rejects longer values. -/
def payloadFits (a : ArticleSchema) : Bool :=
  a.title.length ≤ 255 && (effectiveSlug a).length ≤ 255 &&
    a.category.length ≤ 50 &&
    (match a.thumbnail_url with
     | some t => t.length ≤ 255
     | none => true)

/-- The table contents after the conditional unfeature statement that both
write handlers run when the payload is featured. -/
def afterUnfeature (st : DBState) (a : ArticleSchema) : List Article :=
  if a.is_featured then unfeatureAll st.rows else st.rows

/-- The row built by the INSERT statement of `create_article`: both
timestamps are the single `now` captured at the top of the handler. -/
def mkRow (id : Nat) (now : Timestamp) (a : ArticleSchema) : Article :=
  { id := id, title := a.title, slug := effectiveSlug a, content := a.content,
    category := a.category, created_at := now, updated_at := now,
    is_featured := a.is_featured, status := a.status,
    thumbnail_url := a.thumbnail_url }

/-- The record placed in the response body of `create_article`:
`article.dict()` (so the slug field is the payload value, not the derived
one) updated with the assigned id and the two timestamps. -/
structure ArticleResponse where
  title : String
  slug : Option String
  content : String
  category : String
  is_featured : Bool
  status : String
  thumbnail_url : Option String
  id : Nat
  created_at : Timestamp
  updated_at : Timestamp
deriving Repr, DecidableEq

/-- Body of the 201 response of `create_article`. -/
structure CreateResult where
  message : String
  article : ArticleResponse
deriving Repr, DecidableEq

/-- The response body built from the payload dict in `create_article`. -/
def mkResponse (id : Nat) (now : Timestamp) (a : ArticleSchema) : ArticleResponse :=
  { title := a.title, slug := a.slug, content := a.content,
    category := a.category, is_featured := a.is_featured, status := a.status,
    thumbnail_url := a.thumbnail_url, id := id, created_at := now,
    updated_at := now }

/-- Handler `POST /api/admin/articles` after the auth dependency: if the
payload is featured, first run the unfeature statement on every row, then
execute the INSERT.  The database enforces the UNIQUE constraint on slug
and the varchar limits; a violation aborts the insert but the unfeature
statement has already run (no transaction), and the serial sequence has
been consumed. -/
def create_article (st : DBState) (now : Timestamp) (a : ArticleSchema) :
    DBState × Except ApiError CreateResult :=
  let rows1 := afterUnfeature st a
  let row := mkRow st.nextId now a
  if rows1.any (fun x => x.slug == row.slug) then
    (⟨rows1, st.nextId + 1⟩, .error (.constraint "duplicate key value violates unique constraint"))
  else if payloadFits a then
    (⟨rows1 ++ [row], st.nextId + 1⟩,
      .ok ⟨"Article created", mkResponse st.nextId now a⟩)
  else
    (⟨rows1, st.nextId + 1⟩, .error (.constraint "value too long for type character varying"))

/-- Body of the 200 response of `update_article`. -/
structure UpdateResult where
  message : String
  article_id : Nat
deriving Repr, DecidableEq

/-- The SET clause of the UPDATE statement in `update_article`: it lists
title, slug, content, category, is_featured, status, thumbnail_url and
updated_at; id and created_at are not in the values list. -/
def applyPayload (r : Article) (now : Timestamp) (a : ArticleSchema) : Article :=
  { r with
    title := a.title, slug := effectiveSlug a, content := a.content,
    category := a.category, is_featured := a.is_featured, status := a.status,
    thumbnail_url := a.thumbnail_url, updated_at := now }

/-- Handler `PUT /api/admin/articles/{article_id}` after the auth
dependency: fetch the row by id and answer 404 when absent; otherwise, if
the payload is featured, run the unfeature statement on every row, then
execute the UPDATE.  Writing a slug already owned by another row violates
the UNIQUE constraint. -/
def update_article (st : DBState) (now : Timestamp) (article_id : Nat) (a : ArticleSchema) :
    DBState × Except ApiError UpdateResult :=
  match st.rows.find? (fun r => r.id == article_id) with
  | none => (st, .error (.http 404 "Article not found"))
  | some _ =>
    let rows1 := afterUnfeature st a
    let newSlug := effectiveSlug a
    if rows1.any (fun x => x.id != article_id && x.slug == newSlug) then
      (⟨rows1, st.nextId⟩, .error (.constraint "duplicate key value violates unique constraint"))
    else if payloadFits a then
      (⟨rows1.map (fun r => if r.id == article_id then applyPayload r now a else r), st.nextId⟩,
        .ok ⟨"Article updated", article_id⟩)
    else
      (⟨rows1, st.nextId⟩, .error (.constraint "value too long for type character varying"))

/-! ## Public read path -/

/-- Handler `GET /api/articles/{slug}`: `fetch_one` returns the first row
matching the WHERE clause; absence is a 404. -/
def get_article_by_slug (st : DBState) (slug : String) : Except ApiError Article :=
  match st.rows.find? (fun r => r.slug == slug) with
  | none => .error (.http 404 "Article not found")
  | some r => .ok r

/-- Python truthiness of an `Optional[str]` value: `None` and the empty
string are falsy. -/
def truthyStr : Option String → Bool
  | none => false
  | some s => !(s == "")

/-- ORDER BY created_at DESC.  Ties are returned in table order, one
deterministic refinement of the order the database is free to choose. -/
def sortByCreatedDesc (rows : List Article) : List Article :=
  rows.mergeSort (fun a b => b.created_at ≤ a.created_at)

/-- Handler `GET /api/articles`: the category and status filters are added
to the WHERE clause only when the query parameter is truthy, then the rows
are ordered by created_at descending and paginated by OFFSET and LIMIT. -/
def get_articles (st : DBState) (category status : Option String)
    (limit offset : Nat) : List Article :=
  let q := st.rows
  let q := if truthyStr category then q.filter (fun r => r.category == category.getD "") else q
  let q := if truthyStr status then q.filter (fun r => r.status == status.getD "") else q
  ((sortByCreatedDesc q).drop offset).take limit

/-! ## Token service and auth gate -/

/-- The process-wide signing secret `JWT_SECRET`. -/
def JWT_SECRET : String := "SOFI@LUMINO1337"

/-- The claims carried by a token: subject, expiry, role. -/
structure JwtPayload where
  sub : String
  exp : Timestamp
  role : String
deriving Repr, DecidableEq

/-- A compact credential string, modelled structurally: `signed p secret`
stands for `jwt.encode(p, secret, "HS256")`, and `malformed raw` stands for
any string that is not a well-formed HS256 JWT. -/
inductive Token where
  | signed (payload : JwtPayload) (secret : String)
  | malformed (raw : String)
deriving Repr, DecidableEq

/-- Python `create_jwt_token`: subject is the username, expiry is
`utcnow() + timedelta(days=1)` (86400 seconds), role is "admin". -/
def create_jwt_token (now : Timestamp) (username : String) : Token :=
  .signed ⟨username, now + 86400, "admin"⟩ JWT_SECRET

/-- Python `decode_jwt_token`: `jwt.decode` verifies the signature against
`JWT_SECRET` first (a wrong key or a malformed string raises
`InvalidTokenError`) and then the `exp` claim (`ExpiredSignatureError`);
the two failures are mapped to 401 responses with distinct details. -/
def decode_jwt_token (now : Timestamp) (token : Token) : Except ApiError JwtPayload :=
  match token with
  | .malformed _ => .error (.http 401 "Invalid token")
  | .signed p secret =>
    if secret ≠ JWT_SECRET then .error (.http 401 "Invalid token")
    else if p.exp ≤ now then .error (.http 401 "Token has expired")
    else .ok p

/-- An `Authorization` header value: `bearer t` models the strings of the
form `"Bearer " ++ w` whose first space-separated word after the scheme is
the credential `t`; `other raw` models every string that does not start
with `"Bearer "`. -/
inductive HeaderValue where
  | bearer (t : Token)
  | other (raw : String)
deriving Repr, DecidableEq

/-- Python `get_current_user`: reject a non-Bearer header with 401, then
decode the extracted token. -/
def get_current_user (now : Timestamp) (authorization : HeaderValue) :
    Except ApiError JwtPayload :=
  match authorization with
  | .other _ => .error (.http 401 "Invalid auth header")
  | .bearer t => decode_jwt_token now t

/-- Python `is_admin`: the dependency chain, then the role check. -/
def is_admin (now : Timestamp) (authorization : HeaderValue) : Except ApiError Bool :=
  match get_current_user now authorization with
  | .error e => .error e
  | .ok payload =>
    if payload.role ≠ "admin" then .error (.http 403 "Not enough permissions")
    else .ok true

/-- Handler `GET /api/admin/token`. -/
def get_admin_token (now : Timestamp) (username : String) : Except ApiError Token :=
  if username ≠ "admin" then .error (.http 403 "Invalid username")
  else .ok (create_jwt_token now username)

/-- Route dispatch for `POST /api/admin/articles`.  FastAPI validates the
request first: `authorization: str = Header(...)` declares a required
header, and a request without it fails request validation with a 422
response before any dependency or the handler body runs.  When the header
is present the `is_admin` dependency runs, and only on success does the
handler execute. -/
def post_admin_articles (st : DBState) (now : Timestamp)
    (authorization : Option HeaderValue) (body : ArticleSchema) :
    DBState × Except ApiError CreateResult :=
  match authorization with
  | none => (st, .error (.http 422 "Field required"))
  | some h =>
    match is_admin now h with
    | .error e => (st, .error e)
    | .ok _ => create_article st now body

/-! ## Invariants and operation sequences -/

/-- The rows currently flagged as featured. -/
def featuredRows (rows : List Article) : List Article :=
  rows.filter (fun r => r.is_featured)

/-- The cross-row invariant of the data model: at most one article is
featured at any time. -/
def atMostOneFeatured (rows : List Article) : Prop :=
  (featuredRows rows).length ≤ 1

/-- Well-formedness of a database state: the primary-key column is unique,
every id is below the next sequence value, and the feature invariant holds.
The first two conjuncts are what the serial primary key of the table
guarantees. -/
def Inv (st : DBState) : Prop :=
  (st.rows.map (fun r => r.id)).Nodup ∧
  (∀ i ∈ st.rows.map (fun r => r.id), i < st.nextId) ∧
  atMostOneFeatured st.rows

/-- One admin write operation against the store. -/
inductive Op where
  | create (now : Timestamp) (a : ArticleSchema)
  | update (now : Timestamp) (article_id : Nat) (a : ArticleSchema)

/-- The state reached after one operation, whether it succeeded or not. -/
def applyOp (st : DBState) : Op → DBState
  | .create now a => (create_article st now a).1
  | .update now article_id a => (update_article st now article_id a).1

/-- The state reached after a sequence of operations. -/
def runOps (st : DBState) : List Op → DBState
  | [] => st
  | op :: ops => runOps (applyOp st op) ops

/-- Field-for-field agreement between the record of a 201 response and a
persisted row; the optional slug of the response must carry exactly the
slug stored in the row. -/
def responseMatchesRow (resp : ArticleResponse) (row : Article) : Prop :=
  resp.title = row.title ∧ resp.slug = some row.slug ∧
  resp.content = row.content ∧ resp.category = row.category ∧
  resp.is_featured = row.is_featured ∧ resp.status = row.status ∧
  resp.thumbnail_url = row.thumbnail_url ∧ resp.id = row.id ∧
  resp.created_at = row.created_at ∧ resp.updated_at = row.updated_at

/-! ## Concrete sample data used by witnesses and counterexamples -/

/-- A create payload with no slug supplied. -/
def aNoSlug : ArticleSchema :=
  { title := "Hello World", content := "body", category := "news" }

/-- A featured create payload. -/
def aFeat : ArticleSchema :=
  { title := "Big News", content := "body", category := "news",
    is_featured := true }

/-- A payload whose title is empty; pydantic accepts it, since only
presence and type are validated. -/
def aEmptyTitle : ArticleSchema :=
  { title := "", content := "body", category := "news" }

/-- A payload carrying an explicitly empty slug. -/
def aEmptySlug : ArticleSchema :=
  { title := "Other Title", slug := some "", content := "body",
    category := "news" }

/-- An unfeatured article with id 1 already in the store. -/
def oldRow : Article :=
  { id := 1, title := "Old", slug := "old", content := "old",
    category := "misc", created_at := 3, updated_at := 3,
    is_featured := false, status := "draft", thumbnail_url := none }

/-- A second unfeatured article with id 2. -/
def oldRow2 : Article :=
  { id := 2, title := "Older", slug := "older", content := "old",
    category := "misc", created_at := 4, updated_at := 4,
    is_featured := false, status := "draft", thumbnail_url := none }

/-- A database holding one unfeatured article with id 1. -/
def stOne : DBState := ⟨[oldRow], 2⟩

/-- A database holding two unfeatured articles with ids 1 and 2. -/
def stTwo : DBState := ⟨[oldRow, oldRow2], 3⟩

/-! ## Helper lemmas about the unfeature statement -/

theorem unfeature1_id (r : Article) : (unfeature1 r).id = r.id := by
  unfold unfeature1; split <;> rfl

theorem unfeature1_slug (r : Article) : (unfeature1 r).slug = r.slug := by
  unfold unfeature1; split <;> rfl

theorem unfeature1_created_at (r : Article) :
    (unfeature1 r).created_at = r.created_at := by
  unfold unfeature1; split <;> rfl

theorem unfeature1_is_featured (r : Article) :
    (unfeature1 r).is_featured = false := by
  unfold unfeature1; split <;> simp_all

theorem unfeatureAll_map_id (rows : List Article) :
    (unfeatureAll rows).map (fun r => r.id) = rows.map (fun r => r.id) := by
  simp [unfeatureAll, List.map_map, Function.comp_def, unfeature1_id]

theorem mem_unfeatureAll_not_featured {rows : List Article} {b : Article}
    (hb : b ∈ unfeatureAll rows) : b.is_featured = false := by
  obtain ⟨r, _, rfl⟩ := List.mem_map.mp hb
  exact unfeature1_is_featured r

theorem featuredRows_unfeatureAll (rows : List Article) :
    featuredRows (unfeatureAll rows) = [] := by
  refine List.filter_eq_nil_iff.mpr ?_
  intro b hb
  simp [mem_unfeatureAll_not_featured hb]

theorem afterUnfeature_map_id (st : DBState) (a : ArticleSchema) :
    (afterUnfeature st a).map (fun r => r.id) = st.rows.map (fun r => r.id) := by
  unfold afterUnfeature; split
  · exact unfeatureAll_map_id st.rows
  · rfl

theorem featuredRows_afterUnfeature_le (st : DBState) (a : ArticleSchema) :
    (featuredRows (afterUnfeature st a)).length ≤ (featuredRows st.rows).length := by
  unfold afterUnfeature; split
  · simp [featuredRows_unfeatureAll]
  · exact le_refl _

/-! ## Projection lemmas for the written rows -/

@[simp] theorem applyPayload_id (r : Article) (now : Timestamp) (a : ArticleSchema) :
    (applyPayload r now a).id = r.id := rfl

@[simp] theorem applyPayload_created_at (r : Article) (now : Timestamp) (a : ArticleSchema) :
    (applyPayload r now a).created_at = r.created_at := rfl

@[simp] theorem applyPayload_is_featured (r : Article) (now : Timestamp) (a : ArticleSchema) :
    (applyPayload r now a).is_featured = a.is_featured := rfl

@[simp] theorem applyPayload_slug (r : Article) (now : Timestamp) (a : ArticleSchema) :
    (applyPayload r now a).slug = effectiveSlug a := rfl

@[simp] theorem mkRow_id (i : Nat) (now : Timestamp) (a : ArticleSchema) :
    (mkRow i now a).id = i := rfl

@[simp] theorem mkRow_slug (i : Nat) (now : Timestamp) (a : ArticleSchema) :
    (mkRow i now a).slug = effectiveSlug a := rfl

@[simp] theorem mkRow_is_featured (i : Nat) (now : Timestamp) (a : ArticleSchema) :
    (mkRow i now a).is_featured = a.is_featured := rfl

@[simp] theorem mkResponse_id (i : Nat) (now : Timestamp) (a : ArticleSchema) :
    (mkResponse i now a).id = i := rfl

/-! ## Preservation of the well-formedness invariant -/

theorem inv_mk {rows : List Article} {n : Nat}
    (h1 : (rows.map (fun r => r.id)).Nodup)
    (h2 : ∀ i ∈ rows.map (fun r => r.id), i < n)
    (h3 : atMostOneFeatured rows) : Inv ⟨rows, n⟩ :=
  ⟨h1, h2, h3⟩

theorem featuredRows_append (l1 l2 : List Article) :
    featuredRows (l1 ++ l2) = featuredRows l1 ++ featuredRows l2 :=
  List.filter_append l1 l2

theorem inv_afterUnfeature (st : DBState) (a : ArticleSchema) (n : Nat)
    (hn : st.nextId ≤ n) (h : Inv st) : Inv ⟨afterUnfeature st a, n⟩ := by
  obtain ⟨hnodup, hbound, hone⟩ := h
  refine inv_mk ?_ ?_ ?_
  · rw [afterUnfeature_map_id]; exact hnodup
  · intro i hi
    rw [afterUnfeature_map_id] at hi
    exact lt_of_lt_of_le (hbound i hi) hn
  · exact le_trans (featuredRows_afterUnfeature_le st a) hone

theorem inv_create_ok (st : DBState) (now : Timestamp) (a : ArticleSchema)
    (h : Inv st) :
    Inv ⟨afterUnfeature st a ++ [mkRow st.nextId now a], st.nextId + 1⟩ := by
  obtain ⟨hnodup, hbound, hone⟩ := h
  have hmap : (afterUnfeature st a ++ [mkRow st.nextId now a]).map (fun r => r.id)
      = st.rows.map (fun r => r.id) ++ [st.nextId] := by
    rw [List.map_append, afterUnfeature_map_id]; rfl
  have hfresh : st.nextId ∉ st.rows.map (fun r => r.id) := fun hmem =>
    lt_irrefl _ (hbound _ hmem)
  refine inv_mk ?_ ?_ ?_
  · rw [hmap]; simp [List.nodup_append, hnodup, hfresh]
  · intro i hi
    rw [hmap] at hi
    rcases List.mem_append.mp hi with hl | hr
    · exact lt_trans (hbound i hl) (Nat.lt_succ_self _)
    · simp at hr; omega
  · unfold atMostOneFeatured
    rw [featuredRows_append, List.length_append]
    by_cases hf : a.is_featured = true
    · have h0 : featuredRows (afterUnfeature st a) = [] := by
        unfold afterUnfeature
        rw [if_pos hf]
        exact featuredRows_unfeatureAll st.rows
      have h1 : (featuredRows [mkRow st.nextId now a]).length ≤ 1 := by
        unfold featuredRows
        simpa using List.length_filter_le _ _
      rw [h0]
      simpa using h1
    · have hrows : afterUnfeature st a = st.rows := by
        unfold afterUnfeature; rw [if_neg hf]
      have h1 : featuredRows [mkRow st.nextId now a] = [] := by
        unfold featuredRows
        simp [hf]
      rw [hrows, h1]
      simpa using hone

theorem update_map_ids (st : DBState) (now : Timestamp) (article_id : Nat)
    (a : ArticleSchema) :
    ((afterUnfeature st a).map
      (fun r => if r.id == article_id then applyPayload r now a else r)).map
        (fun r => r.id) = st.rows.map (fun r => r.id) := by
  rw [List.map_map]
  have hcongr : ∀ r ∈ afterUnfeature st a,
      ((fun r => r.id) ∘
        (fun r => if r.id == article_id then applyPayload r now a else r)) r
        = r.id := by
    intro r _
    by_cases hid : r.id = article_id
    · simp [Function.comp_def, hid]
    · simp [Function.comp_def, hid]
  rw [List.map_congr_left hcongr]
  exact afterUnfeature_map_id st a

theorem update_map_atMostOne (st : DBState) (now : Timestamp) (article_id : Nat)
    (a : ArticleSchema) (hnodup : (st.rows.map (fun r => r.id)).Nodup)
    (hone : atMostOneFeatured st.rows) :
    atMostOneFeatured ((afterUnfeature st a).map
      (fun r => if r.id == article_id then applyPayload r now a else r)) := by
  unfold atMostOneFeatured featuredRows
  rw [List.filter_map, List.length_map, ← List.countP_eq_length_filter]
  by_cases hf : a.is_featured = true
  · have hrows : afterUnfeature st a = unfeatureAll st.rows := by
      unfold afterUnfeature; rw [if_pos hf]
    have hstep : List.countP
        ((fun r => r.is_featured) ∘
          (fun r => if r.id == article_id then applyPayload r now a else r))
        (afterUnfeature st a)
        ≤ List.countP (fun r => r.id == article_id) (afterUnfeature st a) := by
      apply List.countP_mono_left
      intro x hx hpx
      simp only [Function.comp_def] at hpx
      cases hb : x.id == article_id with
      | true => rfl
      | false =>
        exfalso
        rw [hb] at hpx
        simp only [Bool.false_eq_true, if_false] at hpx
        rw [hrows] at hx
        exact absurd hpx (by simp [mem_unfeatureAll_not_featured hx])
    have hcount : List.countP (fun r => r.id == article_id) (afterUnfeature st a)
        = List.count article_id (st.rows.map (fun r => r.id)) := by
      rw [← afterUnfeature_map_id st a, List.count, List.countP_map]
      rfl
    calc List.countP _ (afterUnfeature st a)
        ≤ List.countP (fun r => r.id == article_id) (afterUnfeature st a) := hstep
      _ = List.count article_id (st.rows.map (fun r => r.id)) := hcount
      _ ≤ 1 := List.nodup_iff_count_le_one.mp hnodup article_id
  · have hrows : afterUnfeature st a = st.rows := by
      unfold afterUnfeature; rw [if_neg hf]
    have hstep : List.countP
        ((fun r => r.is_featured) ∘
          (fun r => if r.id == article_id then applyPayload r now a else r))
        st.rows ≤ List.countP (fun r => r.is_featured) st.rows := by
      apply List.countP_mono_left
      intro x hx hpx
      simp only [Function.comp_def] at hpx
      cases hb : x.id == article_id with
      | true =>
        exfalso
        rw [hb] at hpx
        simp only [if_true] at hpx
        rw [applyPayload_is_featured] at hpx
        exact hf hpx
      | false =>
        rw [hb] at hpx
        simpa using hpx
    rw [hrows]
    calc List.countP _ st.rows
        ≤ List.countP (fun r => r.is_featured) st.rows := hstep
      _ = (featuredRows st.rows).length := List.countP_eq_length_filter _ _
      _ ≤ 1 := hone

theorem applyOp_preserves_Inv (st : DBState) (op : Op) (h : Inv st) :
    Inv (applyOp st op) := by
  cases op with
  | create now a =>
    simp only [applyOp, create_article]
    split
    · exact inv_afterUnfeature st a (st.nextId + 1) (Nat.le_succ _) h
    · split
      · exact inv_create_ok st now a h
      · exact inv_afterUnfeature st a (st.nextId + 1) (Nat.le_succ _) h
  | update now article_id a =>
    simp only [applyOp, update_article]
    split
    · exact h
    · split
      · exact inv_afterUnfeature st a st.nextId (le_refl _) h
      · split
        · obtain ⟨hnodup, hbound, hone⟩ := h
          refine inv_mk ?_ ?_ ?_
          · rw [update_map_ids]; exact hnodup
          · intro i hi
            rw [update_map_ids] at hi
            exact hbound i hi
          · exact update_map_atMostOne st now article_id a hnodup hone
        · exact inv_afterUnfeature st a st.nextId (le_refl _) h

theorem runOps_preserves_Inv (ops : List Op) (st : DBState) (h : Inv st) :
    Inv (runOps st ops) := by
  induction ops generalizing st with
  | nil => exact h
  | cons op ops ih => exact ih (applyOp st op) (applyOp_preserves_Inv st op h)

theorem Inv_initialState : Inv initialState := by
  refine inv_mk ?_ ?_ ?_ <;>
    simp [initialState, atMostOneFeatured, featuredRows]

/-! ## Lemmas about slug derivation -/

theorem lowerChar_ne_space {c : Char} (h : c ≠ ' ') : lowerChar c ≠ ' ' := by
  unfold lowerChar
  cases hfind : asciiCasePairs.find? (fun p => p.1 == c) with
  | none => exact h
  | some p =>
    have hmem : p ∈ asciiCasePairs := List.mem_of_find?_eq_some hfind
    have hall : ∀ q ∈ asciiCasePairs, q.2 ≠ ' ' := by decide
    exact hall p hmem

theorem lowerChar_replace_comm (c : Char) :
    lowerChar (if c = ' ' then '-' else c)
      = (if lowerChar c = ' ' then '-' else lowerChar c) := by
  by_cases h : c = ' '
  · subst h; rfl
  · rw [if_neg h, if_neg (lowerChar_ne_space h)]

theorem lower_replace_comm (s : String) :
    lowerStr (replaceSpaces s) = replaceSpaces (lowerStr s) := by
  show String.mk ((s.data.map (fun c => if c = ' ' then '-' else c)).map lowerChar)
      = String.mk ((s.data.map lowerChar).map (fun c => if c = ' ' then '-' else c))
  rw [List.map_map, List.map_map]
  exact congrArg String.mk (List.map_congr_left (fun c _ => lowerChar_replace_comm c))

theorem decode_signed (now : Timestamp) (p : JwtPayload) (secret : String) :
    decode_jwt_token now (.signed p secret)
      = if secret ≠ JWT_SECRET then .error (.http 401 "Invalid token")
        else if p.exp ≤ now then .error (.http 401 "Token has expired")
        else .ok p := rfl

theorem effectiveSlug_none {a : ArticleSchema} (h : a.slug = none) :
    effectiveSlug a = derivedSlug a.title := by
  unfold effectiveSlug; rw [h]

theorem effectiveSlug_empty {a : ArticleSchema} (h : a.slug = some "") :
    effectiveSlug a = derivedSlug a.title := by
  unfold effectiveSlug; rw [h]; rfl

theorem effectiveSlug_some {a : ArticleSchema} {s : String}
    (h1 : a.slug = some s) (h2 : s ≠ "") : effectiveSlug a = s := by
  unfold effectiveSlug; rw [h1]; exact if_neg h2

theorem derivedSlug_ne_empty {t : String} (h : t ≠ "") : derivedSlug t ≠ "" := by
  intro habs
  apply h
  unfold derivedSlug lowerStr replaceSpaces at habs
  have hdata : ((t.data.map (fun c => if c = ' ' then '-' else c)).map lowerChar) = [] := by
    have := congrArg String.data habs
    simpa using this
  rcases List.map_eq_nil_iff.mp (List.map_eq_nil_iff.mp hdata) with hnil
  have : t = String.mk [] := congrArg String.mk hnil
  simpa using this

/-! ## Inversion lemmas for the write handlers -/

theorem create_article_ok {st : DBState} {now : Timestamp} {a : ArticleSchema}
    {st2 : DBState} {res : CreateResult}
    (h : create_article st now a = (st2, .ok res)) :
    st2 = ⟨afterUnfeature st a ++ [mkRow st.nextId now a], st.nextId + 1⟩ ∧
    res = ⟨"Article created", mkResponse st.nextId now a⟩ ∧
    (afterUnfeature st a).any
      (fun x => x.slug == (mkRow st.nextId now a).slug) = false ∧
    payloadFits a = true := by
  simp only [create_article] at h
  split at h
  · injection h with h1 h2; exact Except.noConfusion h2
  · rename_i hany
    split at h
    · rename_i hfits
      injection h with h1 h2
      injection h2 with h2
      exact ⟨h1.symm, h2.symm, by simpa using hany, hfits⟩
    · injection h with h1 h2; exact Except.noConfusion h2

theorem update_article_ok {st : DBState} {now : Timestamp} {article_id : Nat}
    {a : ArticleSchema} {st2 : DBState} {res : UpdateResult}
    (h : update_article st now article_id a = (st2, .ok res)) :
    (st.rows.find? (fun r => r.id == article_id)).isSome = true ∧
    res = ⟨"Article updated", article_id⟩ ∧
    st2 = ⟨(afterUnfeature st a).map
            (fun r => if r.id == article_id then applyPayload r now a else r),
           st.nextId⟩ := by
  simp only [update_article] at h
  split at h
  · injection h with h1 h2; exact Except.noConfusion h2
  · rename_i r0 hfind
    split at h
    · injection h with h1 h2; exact Except.noConfusion h2
    · split at h
      · injection h with h1 h2
        injection h2 with h2
        exact ⟨by simp [hfind], h2.symm, h1.symm⟩
      · injection h with h1 h2; exact Except.noConfusion h2

/-! ## Claim theorems -/

/-- C5: an update whose target id matches no existing article fails with a
404 and leaves the stored set of articles completely unchanged; the
existence check runs before the unfeature statement and before the UPDATE,
so nothing is created or modified on this path. -/
theorem update_missing_id_404 (st : DBState) (now : Timestamp)
    (article_id : Nat) (a : ArticleSchema)
    (h : ∀ r ∈ st.rows, r.id ≠ article_id) :
    update_article st now article_id a =
      (st, .error (.http 404 "Article not found")) := by
  have hfind : st.rows.find? (fun r => r.id == article_id) = none := by
    apply List.find?_eq_none.mpr
    intro r hr
    simpa using h r hr
  simp only [update_article, hfind]

/-- Witness for C5: updating id 999 in a store holding only id 1. -/
theorem update_missing_id_404_witness :
    update_article stOne 7 999 aNoSlug =
      (stOne, .error (.http 404 "Article not found")) :=
  update_missing_id_404 stOne 7 999 aNoSlug (by decide)

/-- C1: starting from the empty store, every sequence of create and update
operations (successful or not, which strengthens the claim stated over
successful ones) leaves at most one article featured; moreover any
successful create or update whose payload is featured leaves every article
other than the written one with is_featured = false, because both handlers
run the unfeature statement over the whole table inside the same
operation. -/
theorem feature_invariant :
    (∀ ops : List Op, atMostOneFeatured (runOps initialState ops).rows) ∧
    (∀ (st : DBState) (now : Timestamp) (a : ArticleSchema) (st2 : DBState)
        (res : CreateResult), a.is_featured = true →
        create_article st now a = (st2, .ok res) →
        ∀ b ∈ st2.rows, b.id ≠ res.article.id → b.is_featured = false) ∧
    (∀ (st : DBState) (now : Timestamp) (article_id : Nat) (a : ArticleSchema)
        (st2 : DBState) (res : UpdateResult), a.is_featured = true →
        update_article st now article_id a = (st2, .ok res) →
        ∀ b ∈ st2.rows, b.id ≠ article_id → b.is_featured = false) := by
  refine ⟨?_, ?_, ?_⟩
  · intro ops
    exact (runOps_preserves_Inv ops initialState Inv_initialState).2.2
  · intro st now a st2 res hf h b hb hne
    obtain ⟨hst2, hres, _, _⟩ := create_article_ok h
    subst hst2
    rcases List.mem_append.mp hb with hl | hr
    · have : afterUnfeature st a = unfeatureAll st.rows := by
        unfold afterUnfeature; rw [if_pos hf]
      rw [this] at hl
      exact mem_unfeatureAll_not_featured hl
    · exfalso
      have hb' : b = mkRow st.nextId now a := by simpa using hr
      apply hne
      rw [hb', hres]
      rfl
  · intro st now article_id a st2 res hf h b hb hne
    obtain ⟨_, _, hst2⟩ := update_article_ok h
    subst hst2
    obtain ⟨r, hr, rfl⟩ := List.mem_map.mp hb
    have hrows : afterUnfeature st a = unfeatureAll st.rows := by
      unfold afterUnfeature; rw [if_pos hf]
    rw [hrows] at hr
    by_cases hid : r.id = article_id
    · exfalso
      apply hne
      simp [hid]
    · rw [if_neg (show ¬((r.id == article_id) = true) by simpa using hid)]
      exact mem_unfeatureAll_not_featured hr

/-- Witness for C1: a featured create over a two-row store leaves the old
row with id 2 unfeatured, a featured update of id 2 leaves the row with
id 1 unfeatured, and a concrete operation sequence keeps the invariant. -/
theorem feature_invariant_witness :
    atMostOneFeatured (runOps initialState [.create 5 aFeat, .create 6 aNoSlug]).rows ∧
    oldRow2.is_featured = false ∧
    oldRow.is_featured = false :=
  ⟨feature_invariant.1 _,
   feature_invariant.2.1 stTwo 5 aFeat (create_article stTwo 5 aFeat).1
     ⟨"Article created", mkResponse 3 5 aFeat⟩ rfl rfl oldRow2 (by decide) (by decide),
   feature_invariant.2.2 stTwo 6 2 aFeat (update_article stTwo 6 2 aFeat).1
     ⟨"Article updated", 2⟩ rfl rfl oldRow (by decide) (by decide)⟩

/-- C8: a successful update rewrites, positionally for every row, nothing
but the targeted rows, and on the targeted row it overwrites every mutable
column with the payload value (the slug being the supplied slug whenever
one is given, and the derived `effectiveSlug` in general), refreshes
updated_at to the captured time, and leaves created_at and id untouched. -/
theorem update_frame_property (st : DBState) (now : Timestamp)
    (article_id : Nat) (a : ArticleSchema) (st2 : DBState) (res : UpdateResult)
    (h : update_article st now article_id a = (st2, .ok res)) :
    List.Forall₂ (fun nr old =>
      nr.id = old.id ∧ nr.created_at = old.created_at ∧
      (old.id = article_id →
        nr.title = a.title ∧ nr.content = a.content ∧
        nr.category = a.category ∧ nr.is_featured = a.is_featured ∧
        nr.status = a.status ∧ nr.thumbnail_url = a.thumbnail_url ∧
        nr.slug = effectiveSlug a ∧
        (∀ s, a.slug = some s → s ≠ "" → nr.slug = s) ∧
        nr.updated_at = now))
      st2.rows st.rows := by
  obtain ⟨_, _, hst2⟩ := update_article_ok h
  subst hst2
  show List.Forall₂ _ ((afterUnfeature st a).map _) st.rows
  have hpoint : ∀ (g : Article → Article), (∀ r, (g r).id = r.id) →
      (∀ r, (g r).created_at = r.created_at) → ∀ x,
      let nr := if (g x).id == article_id then applyPayload (g x) now a else g x
      nr.id = x.id ∧ nr.created_at = x.created_at ∧
      (x.id = article_id →
        nr.title = a.title ∧ nr.content = a.content ∧
        nr.category = a.category ∧ nr.is_featured = a.is_featured ∧
        nr.status = a.status ∧ nr.thumbnail_url = a.thumbnail_url ∧
        nr.slug = effectiveSlug a ∧
        (∀ s, a.slug = some s → s ≠ "" → nr.slug = s) ∧
        nr.updated_at = now) := by
    intro g hgid hgca x
    by_cases hid : x.id = article_id
    · have hcond : ((g x).id == article_id) = true := by
        simp [hgid, hid]
      simp only [hcond, if_true]
      refine ⟨by simp [hgid], by simp [hgca], fun _ => ?_⟩
      refine ⟨rfl, rfl, rfl, rfl, rfl, rfl, rfl, ?_, rfl⟩
      intro s hs1 hs2
      exact effectiveSlug_some hs1 hs2
    · have hcond : ((g x).id == article_id) = false := by
        simp [hgid, hid]
      simp only [hcond, Bool.false_eq_true, if_false]
      exact ⟨hgid x, hgca x, fun habs => absurd habs hid⟩
  unfold afterUnfeature
  by_cases hf : a.is_featured = true
  · rw [if_pos hf]
    unfold unfeatureAll
    rw [List.map_map]
    refine List.forall₂_map_left_iff.mpr (List.forall₂_same.mpr ?_)
    intro x _
    exact hpoint unfeature1 unfeature1_id unfeature1_created_at x
  · rw [if_neg hf]
    refine List.forall₂_map_left_iff.mpr (List.forall₂_same.mpr ?_)
    intro x _
    exact hpoint id (fun _ => rfl) (fun _ => rfl) x

/-- Witness for C8: updating the only row of a one-row store. -/
theorem update_frame_property_witness :
    List.Forall₂ (fun nr old =>
      nr.id = old.id ∧ nr.created_at = old.created_at ∧
      (old.id = 1 →
        nr.title = aNoSlug.title ∧ nr.content = aNoSlug.content ∧
        nr.category = aNoSlug.category ∧ nr.is_featured = aNoSlug.is_featured ∧
        nr.status = aNoSlug.status ∧ nr.thumbnail_url = aNoSlug.thumbnail_url ∧
        nr.slug = effectiveSlug aNoSlug ∧
        (∀ s, aNoSlug.slug = some s → s ≠ "" → nr.slug = s) ∧
        nr.updated_at = 9))
      (update_article stOne 9 1 aNoSlug).1.rows stOne.rows :=
  update_frame_property stOne 9 1 aNoSlug (update_article stOne 9 1 aNoSlug).1
    ⟨"Article updated", 1⟩ rfl

/-- C4: a create whose payload supplies no slug persists the slug obtained
from the title by lowercasing and replacing every space with a hyphen (the
two steps commute, so both orders are stated), and a lookup by that slug
against the resulting store finds exactly the created record. -/
theorem slug_roundtrip (st : DBState) (now : Timestamp) (a : ArticleSchema)
    (st2 : DBState) (res : CreateResult)
    (hslug : a.slug = none)
    (h : create_article st now a = (st2, .ok res)) :
    ∃ row ∈ st2.rows,
      row.id = res.article.id ∧ row.title = a.title ∧
      row.slug = lowerStr (replaceSpaces a.title) ∧
      row.slug = replaceSpaces (lowerStr a.title) ∧
      get_article_by_slug st2 row.slug = .ok row := by
  obtain ⟨hst2, hres, hany, _⟩ := create_article_ok h
  subst hst2
  subst hres
  refine ⟨mkRow st.nextId now a, by simp, rfl, rfl, ?_, ?_, ?_⟩
  · rw [mkRow_slug, effectiveSlug_none hslug]; rfl
  · rw [mkRow_slug, effectiveSlug_none hslug]
    exact lower_replace_comm a.title
  · have hnone : (afterUnfeature st a).find?
        (fun r => r.slug == (mkRow st.nextId now a).slug) = none := by
      apply List.find?_eq_none.mpr
      intro r hr
      exact (List.any_eq_false.mp hany) r hr
    have hfind : ((afterUnfeature st a) ++ [mkRow st.nextId now a]).find?
        (fun r => r.slug == (mkRow st.nextId now a).slug)
        = some (mkRow st.nextId now a) := by
      rw [List.find?_append, hnone]
      simp
    simp only [get_article_by_slug]
    rw [hfind]

/-- Witness for C4: creating "Hello World" with no slug in a one-row store
and fetching "hello-world". -/
theorem slug_roundtrip_witness :
    ∃ row ∈ (create_article stOne 5 aNoSlug).1.rows,
      row.id = (mkResponse 2 5 aNoSlug).id ∧ row.title = aNoSlug.title ∧
      row.slug = lowerStr (replaceSpaces aNoSlug.title) ∧
      row.slug = replaceSpaces (lowerStr aNoSlug.title) ∧
      get_article_by_slug (create_article stOne 5 aNoSlug).1 row.slug = .ok row :=
  slug_roundtrip stOne 5 aNoSlug (create_article stOne 5 aNoSlug).1
    ⟨"Article created", mkResponse 2 5 aNoSlug⟩ rfl rfl

/-- C2 counterexample: creating "Hello World" with no slug inserts a row
whose slug is "hello-world", while the record in the response body carries
slug `none` (the handler returns `article.dict()`, the payload, not the
row), so the returned record does not equal the persisted record. -/
theorem create_response_counterexample :
    (create_article stOne 5 aNoSlug).1.rows = [oldRow, mkRow 2 5 aNoSlug] ∧
    (create_article stOne 5 aNoSlug).2 =
      .ok ⟨"Article created", mkResponse 2 5 aNoSlug⟩ ∧
    (mkRow 2 5 aNoSlug).slug = "hello-world" ∧
    (mkResponse 2 5 aNoSlug).slug = none ∧
    ¬ responseMatchesRow (mkResponse 2 5 aNoSlug) (mkRow 2 5 aNoSlug) := by
  refine ⟨rfl, rfl, rfl, rfl, ?_⟩
  intro hmatch
  exact absurd hmatch.2.1 (by decide)

/-- C2 (amended): a successful create returns the assigned id and the
server-assigned timestamps, and every field of the response record except
the slug agrees with the inserted row; the slug field of the response
echoes the payload slug (so it is `none` when no slug was supplied, while
the row carries the derived slug), and whenever the caller supplies a
non-empty slug the response record equals the persisted record
field for field. -/
theorem create_response_amended (st : DBState) (now : Timestamp)
    (a : ArticleSchema) (st2 : DBState) (res : CreateResult)
    (h : create_article st now a = (st2, .ok res)) :
    res.message = "Article created" ∧
    res.article.id = st.nextId ∧
    res.article.created_at = now ∧ res.article.updated_at = now ∧
    res.article.slug = a.slug ∧
    ∃ row ∈ st2.rows,
      row.id = res.article.id ∧ row.title = res.article.title ∧
      row.content = res.article.content ∧
      row.category = res.article.category ∧
      row.is_featured = res.article.is_featured ∧
      row.status = res.article.status ∧
      row.thumbnail_url = res.article.thumbnail_url ∧
      row.created_at = res.article.created_at ∧
      row.updated_at = res.article.updated_at ∧
      row.slug = effectiveSlug a ∧
      (∀ s, a.slug = some s → s ≠ "" →
        responseMatchesRow res.article row) := by
  obtain ⟨hst2, hres, _, _⟩ := create_article_ok h
  subst hst2
  subst hres
  refine ⟨rfl, rfl, rfl, rfl, rfl,
    mkRow st.nextId now a, by simp, rfl, rfl, rfl, rfl, rfl, rfl, rfl, rfl,
    rfl, rfl, ?_⟩
  intro s hs1 hs2
  refine ⟨rfl, ?_, rfl, rfl, rfl, rfl, rfl, rfl, rfl, rfl⟩
  show a.slug = some (effectiveSlug a)
  rw [hs1, effectiveSlug_some hs1 hs2]

/-- Witness for C2 (amended): create with a supplied non-empty slug. -/
theorem create_response_amended_witness :
    (⟨"Article created", mkResponse 1 4 aEmptySlug⟩ : CreateResult).message
        = "Article created" ∧
    (mkResponse 1 4 aEmptySlug).id = 1 ∧
    (mkResponse 1 4 aEmptySlug).created_at = 4 ∧
    (mkResponse 1 4 aEmptySlug).updated_at = 4 ∧
    (mkResponse 1 4 aEmptySlug).slug = aEmptySlug.slug ∧
    ∃ row ∈ (create_article initialState 4 aEmptySlug).1.rows,
      row.id = (mkResponse 1 4 aEmptySlug).id ∧
      row.title = (mkResponse 1 4 aEmptySlug).title ∧
      row.content = (mkResponse 1 4 aEmptySlug).content ∧
      row.category = (mkResponse 1 4 aEmptySlug).category ∧
      row.is_featured = (mkResponse 1 4 aEmptySlug).is_featured ∧
      row.status = (mkResponse 1 4 aEmptySlug).status ∧
      row.thumbnail_url = (mkResponse 1 4 aEmptySlug).thumbnail_url ∧
      row.created_at = (mkResponse 1 4 aEmptySlug).created_at ∧
      row.updated_at = (mkResponse 1 4 aEmptySlug).updated_at ∧
      row.slug = effectiveSlug aEmptySlug ∧
      (∀ s, aEmptySlug.slug = some s → s ≠ "" →
        responseMatchesRow (mkResponse 1 4 aEmptySlug) row) :=
  create_response_amended initialState 4 aEmptySlug
    (create_article initialState 4 aEmptySlug).1
    ⟨"Article created", mkResponse 1 4 aEmptySlug⟩ rfl

/-- C9 counterexample: the payload with an empty title and no slug passes
pydantic validation, the create succeeds, and the persisted row carries the
empty string as its slug. -/
theorem empty_slug_counterexample :
    (create_article initialState 0 aEmptyTitle).2.isOk = true ∧
    (create_article initialState 0 aEmptyTitle).1.rows.map
      (fun r => r.slug) = [""] :=
  ⟨rfl, rfl⟩

/-- C9 (amended): in both create and update a falsy slug (absent or the
empty string) is replaced by the slug derived from the title, so the
persisted slug can only be empty when the title itself is empty; with a
non-empty title no empty slug is ever persisted by these operations. -/
theorem falsy_slug_amended :
    (∀ (st : DBState) (now : Timestamp) (a : ArticleSchema) (st2 : DBState)
        (res : CreateResult), (a.slug = none ∨ a.slug = some "") →
        create_article st now a = (st2, .ok res) →
        ∃ row ∈ st2.rows, row.id = st.nextId ∧
          row.slug = derivedSlug a.title ∧
          (a.title ≠ "" → row.slug ≠ "")) ∧
    (∀ (st : DBState) (now : Timestamp) (article_id : Nat)
        (a : ArticleSchema) (st2 : DBState) (res : UpdateResult),
        (a.slug = none ∨ a.slug = some "") →
        update_article st now article_id a = (st2, .ok res) →
        ∀ r ∈ st2.rows, r.id = article_id →
          r.slug = derivedSlug a.title ∧
          (a.title ≠ "" → r.slug ≠ "")) := by
  have heff : ∀ (a : ArticleSchema), (a.slug = none ∨ a.slug = some "") →
      effectiveSlug a = derivedSlug a.title := by
    intro a hfalsy
    rcases hfalsy with hn | he
    · exact effectiveSlug_none hn
    · exact effectiveSlug_empty he
  constructor
  · intro st now a st2 res hfalsy h
    obtain ⟨hst2, _, _, _⟩ := create_article_ok h
    subst hst2
    refine ⟨mkRow st.nextId now a, by simp, rfl, ?_, ?_⟩
    · rw [mkRow_slug, heff a hfalsy]
    · intro htitle
      rw [mkRow_slug, heff a hfalsy]
      exact derivedSlug_ne_empty htitle
  · intro st now article_id a st2 res hfalsy h r hr hid
    obtain ⟨_, _, hst2⟩ := update_article_ok h
    subst hst2
    obtain ⟨x, hx, rfl⟩ := List.mem_map.mp hr
    by_cases hxid : x.id = article_id
    · have hcond : (x.id == article_id) = true := by simp [hxid]
      rw [hcond] at hid ⊢
      simp only [if_true]
      constructor
      · rw [applyPayload_slug, heff a hfalsy]
      · intro htitle
        rw [applyPayload_slug, heff a hfalsy]
        exact derivedSlug_ne_empty htitle
    · exfalso
      have hcond : (x.id == article_id) = false := by simp [hxid]
      rw [hcond] at hid
      simp only [Bool.false_eq_true, if_false] at hid
      exact hxid hid

/-- Witness for C9 (amended): a create with an explicitly empty slug and a
non-empty title, and an update with no slug over a one-row store. -/
theorem falsy_slug_amended_witness :
    (∃ row ∈ (create_article initialState 4 aEmptySlug).1.rows,
      row.id = 1 ∧ row.slug = derivedSlug aEmptySlug.title ∧
      (aEmptySlug.title ≠ "" → row.slug ≠ "")) ∧
    (∀ r ∈ (update_article stOne 9 1 aNoSlug).1.rows, r.id = 1 →
      r.slug = derivedSlug aNoSlug.title ∧
      (aNoSlug.title ≠ "" → r.slug ≠ "")) :=
  ⟨falsy_slug_amended.1 initialState 4 aEmptySlug
      (create_article initialState 4 aEmptySlug).1
      ⟨"Article created", mkResponse 1 4 aEmptySlug⟩ (Or.inr rfl) rfl,
   falsy_slug_amended.2 stOne 9 1 aNoSlug
      (update_article stOne 9 1 aNoSlug).1
      ⟨"Article updated", 1⟩ (Or.inl rfl) rfl⟩

/-- C3 counterexample: the concrete no-header POST is answered with a 422
request-validation rejection, not with the 401 the claim asserts; the
store is unchanged. -/
theorem missing_auth_header_counterexample :
    post_admin_articles stOne 0 none aNoSlug =
      (stOne, .error (.http 422 "Field required")) ∧
    (422 : Nat) ≠ 401 :=
  ⟨rfl, by decide⟩

/-- C3 (amended): a POST /admin/articles request without an Authorization
header is rejected by FastAPI request validation with status 422 (the
header parameter is declared required) before the auth dependency or the
handler run, and no article row is inserted; the repository is never
reached. -/
theorem missing_auth_header_amended (st : DBState) (now : Timestamp)
    (body : ArticleSchema) :
    post_admin_articles st now none body =
      (st, .error (.http 422 "Field required")) := rfl

/-- C6: requesting a token for any username other than "admin" is refused
with 403 and no credential is produced, while username "admin" receives a
credential that decodes under the process secret to subject "admin", role
"admin" and an expiry of exactly the issuance time plus 24 hours
(86400 seconds). -/
theorem admin_token_issuance :
    (∀ (now : Timestamp) (u : String), u ≠ "admin" →
        get_admin_token now u = .error (.http 403 "Invalid username")) ∧
    (∀ now : Timestamp,
        get_admin_token now "admin" = .ok (create_jwt_token now "admin") ∧
        decode_jwt_token now (create_jwt_token now "admin")
          = .ok ⟨"admin", now + 86400, "admin"⟩) := by
  constructor
  · intro now u hu
    unfold get_admin_token
    rw [if_pos hu]
  · intro now
    constructor
    · rfl
    · unfold create_jwt_token
      have hexp : ¬((⟨"admin", now + 86400, "admin"⟩ : JwtPayload).exp ≤ now) := by
        show ¬(now + 86400 ≤ now)
        simp
      rw [decode_signed, if_neg (by simp), if_neg hexp]

/-- Witness for C6: username "bob" is refused, username "admin" at time
100 receives a credential decoding to expiry 86500. -/
theorem admin_token_issuance_witness :
    get_admin_token 100 "bob" = .error (.http 403 "Invalid username") ∧
    (get_admin_token 100 "admin" = .ok (create_jwt_token 100 "admin") ∧
     decode_jwt_token 100 (create_jwt_token 100 "admin")
       = .ok ⟨"admin", 86500, "admin"⟩) :=
  ⟨admin_token_issuance.1 100 "bob" (by decide),
   admin_token_issuance.2 100⟩

/-- C7: verification distinguishes an expired credential from an invalid
one — an expired signature yields 401 "Token has expired" while a wrong
key or malformed string yields 401 "Invalid token", two distinct details —
and an authentication failure propagates out of the admin POST route with
the store untouched, before any business logic runs. -/
theorem decode_failure_modes :
    (∀ (now : Timestamp) (p : JwtPayload), p.exp ≤ now →
        decode_jwt_token now (.signed p JWT_SECRET)
          = .error (.http 401 "Token has expired")) ∧
    (∀ (now : Timestamp) (raw : String),
        decode_jwt_token now (.malformed raw)
          = .error (.http 401 "Invalid token")) ∧
    (∀ (now : Timestamp) (p : JwtPayload) (s : String), s ≠ JWT_SECRET →
        decode_jwt_token now (.signed p s)
          = .error (.http 401 "Invalid token")) ∧
    ("Token has expired" ≠ "Invalid token") ∧
    (∀ (st : DBState) (now : Timestamp) (hv : HeaderValue)
        (body : ArticleSchema) (e : ApiError),
        get_current_user now hv = .error e →
        post_admin_articles st now (some hv) body = (st, .error e)) := by
  refine ⟨?_, ?_, ?_, by decide, ?_⟩
  · intro now p hexp
    rw [decode_signed, if_neg (by simp), if_pos hexp]
  · intro now raw
    rfl
  · intro now p s hs
    rw [decode_signed, if_pos hs]
  · intro st now hv body e he
    simp only [post_admin_articles, is_admin, he]

/-- Witness for C7: an expired token, a malformed token, a token signed
with the wrong key, and a non-Bearer header on the POST route. -/
theorem decode_failure_modes_witness :
    decode_jwt_token 100 (.signed ⟨"admin", 50, "admin"⟩ JWT_SECRET)
      = .error (.http 401 "Token has expired") ∧
    decode_jwt_token 100 (.malformed "garbage")
      = .error (.http 401 "Invalid token") ∧
    decode_jwt_token 100 (.signed ⟨"admin", 200, "admin"⟩ "wrong-key")
      = .error (.http 401 "Invalid token") ∧
    post_admin_articles stOne 100 (some (.other "Basic abc")) aNoSlug
      = (stOne, .error (.http 401 "Invalid auth header")) :=
  ⟨decode_failure_modes.1 100 ⟨"admin", 50, "admin"⟩ (by decide),
   decode_failure_modes.2.1 100 "garbage",
   decode_failure_modes.2.2.1 100 ⟨"admin", 200, "admin"⟩ "wrong-key"
     (by decide),
   decode_failure_modes.2.2.2.2 stOne 100 (.other "Basic abc") aNoSlug
     (.http 401 "Invalid auth header") rfl⟩

/-- C10: an empty-string category or status query parameter is falsy in
Python, so its WHERE clause is omitted exactly as when the parameter is
absent: the listing with an empty filter returns the same rows as the
listing with no filter. -/
theorem empty_filter_ignored (st : DBState) (other : Option String)
    (limit offset : Nat) :
    get_articles st (some "") other limit offset
      = get_articles st none other limit offset ∧
    get_articles st other (some "") limit offset
      = get_articles st other none limit offset := by
  constructor <;> simp [get_articles, truthyStr]

end NewsWeb
